import Mathlib

/-!
# Verification of `expo-camera2`'s capability-gated command proxy

Shallow embedding of `src/packages/expo-camera2/src/ExpoCamera2View.tsx`:
the `ExpoCamera2View` component, its eight `@ensureAvailable`-decorated
command methods, the `setNativeReference` lifecycle callback and the
`ensureAvailable` decorator itself, together with a model of the external
`ExpoCamera2ViewManager` registry the commands delegate to.
-/

namespace ExpoCamera2

/-- A JavaScript value, as far as this component manipulates them:
`undefined`, `null`, booleans, (integral) numbers, strings and plain
objects given as association lists of fields. -/
inductive JSValue : Type
  | undefined : JSValue
  | null : JSValue
  | bool (b : Bool) : JSValue
  | num (n : Int) : JSValue
  | str (s : String) : JSValue
  | obj (fields : List (String × JSValue)) : JSValue

/-- JavaScript truthiness of a value: `undefined`, `null`, `false`, `0`
and the empty string are falsy; every other value here is truthy. -/
def JSValue.truthy : JSValue → Bool
  | .undefined => false
  | .null => false
  | .bool b => b
  | .num n => !(n == 0)
  | .str s => !(s == "")
  | .obj _ => true

/-- Errors this layer can throw synchronously.
`unavailability s c` is `new UnavailabilityError(s, c)` (line 270 of the
source passes the subsystem `'Camera'` and the capability name);
`typeError` models the TypeError JavaScript raises when a non-function
registry entry is invoked. -/
inductive JSError : Type
  | unavailability (subsystem : String) (capability : String) : JSError
  | typeError : JSError

/-- Modelled from the spec: the `UnavailabilityError` module is imported by
the source but is not under `src/`; per the spec the error "carr[ies] the
subsystem name and capability name" and its message "names the subsystem
and the missing capability". -/
def unavailabilityMessage (subsystem : String) (capability : String) : String :=
  subsystem ++ "." ++ capability ++ " is not available"

/-- The message of a thrown error. -/
def JSError.message : JSError → String
  | .unavailability s c => unavailabilityMessage s c
  | .typeError => "is not a function"

/-- The eventual outcome of a promise returned by a registry call:
resolved with a value, or rejected with a value. -/
inductive PromiseOutcome : Type
  | resolved (v : JSValue) : PromiseOutcome
  | rejected (e : JSValue) : PromiseOutcome

/-- The observable result of invoking a command method: either a
synchronous throw (before any asynchronous work), or the promise the
registry call returned, passed through unchanged. -/
inductive InvokeResult : Type
  | thrown (e : JSError) : InvokeResult
  | returned (p : PromiseOutcome) : InvokeResult

/-- An entry of the external registry object: either a plain (non-callable)
JavaScript value — `value .undefined` doubles as an absent key — or a
callable, modelled as a function from the argument list to the outcome of
the promise it returns. -/
inductive EntryVal : Type
  | value (v : JSValue) : EntryVal
  | func (f : List JSValue → PromiseOutcome) : EntryVal

/-- Truthiness of a registry entry: functions are always truthy objects in
JavaScript; plain values use `JSValue.truthy`. -/
def EntryVal.truthy : EntryVal → Bool
  | .value v => v.truthy
  | .func _ => true

/-- Model of the external `ExpoCamera2ViewManager` native module: one entry
per capability the component delegates to. -/
structure ExpoCamera2ViewManager : Type where
  pausePreviewAsync : EntryVal
  resumePreviewAsync : EntryVal
  takePictureAsync : EntryVal
  recordAsync : EntryVal
  stopRecordingAsync : EntryVal
  getAvailableRatiosAsync : EntryVal
  getAvailablePictureSizesAsync : EntryVal
  focusOnPoint : EntryVal

/-- Dynamic property lookup `ExpoCamera2ViewManager[propertyName]`, as the
`ensureAvailable` decorator performs it; an unknown key reads as
`undefined`. -/
def ExpoCamera2ViewManager.get (m : ExpoCamera2ViewManager) : String → EntryVal
  | "pausePreviewAsync" => m.pausePreviewAsync
  | "resumePreviewAsync" => m.resumePreviewAsync
  | "takePictureAsync" => m.takePictureAsync
  | "recordAsync" => m.recordAsync
  | "stopRecordingAsync" => m.stopRecordingAsync
  | "getAvailableRatiosAsync" => m.getAvailableRatiosAsync
  | "getAvailablePictureSizesAsync" => m.getAvailablePictureSizesAsync
  | "focusOnPoint" => m.focusOnPoint
  | _ => .value .undefined

/-- A record of one call made to a registry function: which capability was
invoked and with exactly which argument list. -/
structure RegistryCall : Type where
  capability : String
  args : List JSValue

/-- Calling `ExpoCamera2ViewManager[name](args...)`: if the entry is a
function it is applied to the arguments — the call is recorded in the
trace and its promise returned unchanged; invoking a non-function throws a
TypeError and no registry function runs. -/
def callManager (m : ExpoCamera2ViewManager) (name : String) (args : List JSValue) :
    InvokeResult × List RegistryCall :=
  match m.get name with
  | .func f => (.returned (f args), [⟨name, args⟩])
  | .value _ => (.thrown .typeError, [])

/-- The `ExpoCamera2View` component instance state: the single mutable
field `cameraNodeHandle` (line 155), `undefined` (`none`) until a native
view is mounted and resolved. -/
structure ExpoCamera2View : Type where
  cameraNodeHandle : Option Int

/-- Reading `this.cameraNodeHandle` as the JavaScript value passed to the
registry: `undefined` when unset. -/
def handleToJS : Option Int → JSValue
  | none => .undefined
  | some h => .num h

/-- JavaScript default-parameter semantics for `options = {}`: the default
applies when the argument is omitted or is `undefined`. -/
def defaultArg (arg : Option JSValue) (d : JSValue) : JSValue :=
  match arg with
  | none => d
  | some .undefined => d
  | some v => v

/-- The `ensureAvailable` decorator (lines 261–275): the wrapped method
first checks `!ExpoCamera2ViewManager[propertyName]`; if the entry is
falsy it throws `new UnavailabilityError('Camera', propertyName)`
synchronously, making no registry call; otherwise it runs the original
method body on the unchanged instance. -/
def ensureAvailable (m : ExpoCamera2ViewManager) (propertyName : String)
    (self : ExpoCamera2View)
    (method : ExpoCamera2View → ExpoCamera2View × InvokeResult × List RegistryCall) :
    ExpoCamera2View × InvokeResult × List RegistryCall :=
  if !(m.get propertyName).truthy then
    (self, .thrown (.unavailability "Camera" propertyName), [])
  else
    method self

/-- `pausePreviewAsync` (lines 161–164). -/
def ExpoCamera2View.pausePreviewAsync (m : ExpoCamera2ViewManager) (self : ExpoCamera2View) :
    ExpoCamera2View × InvokeResult × List RegistryCall :=
  ensureAvailable m "pausePreviewAsync" self fun this =>
    (this, callManager m "pausePreviewAsync" [handleToJS this.cameraNodeHandle])

/-- `resumePreviewAsync` (lines 169–172). -/
def ExpoCamera2View.resumePreviewAsync (m : ExpoCamera2ViewManager) (self : ExpoCamera2View) :
    ExpoCamera2View × InvokeResult × List RegistryCall :=
  ensureAvailable m "resumePreviewAsync" self fun this =>
    (this, callManager m "resumePreviewAsync" [handleToJS this.cameraNodeHandle])

/-- `takePictureAsync(options: TakingPictureOptions = {})` (lines 182–185);
`options` is `none` when the caller omits the argument. -/
def ExpoCamera2View.takePictureAsync (m : ExpoCamera2ViewManager) (self : ExpoCamera2View)
    (options : Option JSValue) :
    ExpoCamera2View × InvokeResult × List RegistryCall :=
  ensureAvailable m "takePictureAsync" self fun this =>
    (this, callManager m "takePictureAsync"
      [defaultArg options (.obj []), handleToJS this.cameraNodeHandle])

/-- `recordAsync(options: VideoRecordingOptions = {})` (lines 200–203). -/
def ExpoCamera2View.recordAsync (m : ExpoCamera2ViewManager) (self : ExpoCamera2View)
    (options : Option JSValue) :
    ExpoCamera2View × InvokeResult × List RegistryCall :=
  ensureAvailable m "recordAsync" self fun this =>
    (this, callManager m "recordAsync"
      [defaultArg options (.obj []), handleToJS this.cameraNodeHandle])

/-- `stopRecordingAsync` (lines 208–211). -/
def ExpoCamera2View.stopRecordingAsync (m : ExpoCamera2ViewManager) (self : ExpoCamera2View) :
    ExpoCamera2View × InvokeResult × List RegistryCall :=
  ensureAvailable m "stopRecordingAsync" self fun this =>
    (this, callManager m "stopRecordingAsync" [handleToJS this.cameraNodeHandle])

/-- `getAvailableRatiosAsync` (lines 217–220). -/
def ExpoCamera2View.getAvailableRatiosAsync (m : ExpoCamera2ViewManager)
    (self : ExpoCamera2View) :
    ExpoCamera2View × InvokeResult × List RegistryCall :=
  ensureAvailable m "getAvailableRatiosAsync" self fun this =>
    (this, callManager m "getAvailableRatiosAsync" [handleToJS this.cameraNodeHandle])

/-- `getAvailablePictureSizesAsync(ratio: string)` (lines 226–229). -/
def ExpoCamera2View.getAvailablePictureSizesAsync (m : ExpoCamera2ViewManager)
    (self : ExpoCamera2View) (ratio : JSValue) :
    ExpoCamera2View × InvokeResult × List RegistryCall :=
  ensureAvailable m "getAvailablePictureSizesAsync" self fun this =>
    (this, callManager m "getAvailablePictureSizesAsync"
      [ratio, handleToJS this.cameraNodeHandle])

/-- `focusOnPoint(previewFocusPoint: FocusPoint)` (lines 235–238). -/
def ExpoCamera2View.focusOnPoint (m : ExpoCamera2ViewManager) (self : ExpoCamera2View)
    (previewFocusPoint : JSValue) :
    ExpoCamera2View × InvokeResult × List RegistryCall :=
  ensureAvailable m "focusOnPoint" self fun this =>
    (this, callManager m "focusOnPoint"
      [previewFocusPoint, handleToJS this.cameraNodeHandle])

/-- A mounted native view reference, as seen by this component: all the
component does with it is pass it to `react-native`'s `findNodeHandle`, so
it is modelled by that lookup's result (`none` for `null`). -/
structure NativeRef : Type where
  nodeHandle : Option Int

/-- `react-native`'s `findNodeHandle` (external collaborator): resolves a
mounted reference to its node handle, or `null`. -/
def findNodeHandle (r : NativeRef) : Option Int :=
  r.nodeHandle

/-- `setNativeReference` (lines 240–249): on a non-null ref, resolve the
handle and store it only if it is truthy (a nonzero number); on a null ref
clear the stored handle. -/
def ExpoCamera2View.setNativeReference (self : ExpoCamera2View) (ref : Option NativeRef) :
    ExpoCamera2View :=
  match ref with
  | some r =>
    match findNodeHandle r with
    | some h => if h = 0 then self else { self with cameraNodeHandle := some h }
    | none => self
  | none => { self with cameraNodeHandle := none }

/-- The eight imperative commands of the component, with the argument each
takes from the caller (`Option` where the source has a default parameter). -/
inductive Command : Type
  | pausePreview : Command
  | resumePreview : Command
  | takePicture (options : Option JSValue) : Command
  | record (options : Option JSValue) : Command
  | stopRecording : Command
  | availableRatios : Command
  | availablePictureSizes (ratio : JSValue) : Command
  | focusOnPoint (pt : JSValue) : Command

/-- The name of the command's method, which the `ensureAvailable` decorator
receives as `propertyName` and under which the registry is consulted. -/
def Command.name : Command → String
  | .pausePreview => "pausePreviewAsync"
  | .resumePreview => "resumePreviewAsync"
  | .takePicture _ => "takePictureAsync"
  | .record _ => "recordAsync"
  | .stopRecording => "stopRecordingAsync"
  | .availableRatios => "getAvailableRatiosAsync"
  | .availablePictureSizes _ => "getAvailablePictureSizesAsync"
  | .focusOnPoint _ => "focusOnPoint"

/-- The argument list each method body hands the registry: the caller's
arguments (after default-parameter substitution) with
`this.cameraNodeHandle` appended. -/
def Command.args (c : Command) (self : ExpoCamera2View) : List JSValue :=
  match c with
  | .pausePreview => [handleToJS self.cameraNodeHandle]
  | .resumePreview => [handleToJS self.cameraNodeHandle]
  | .takePicture o => [defaultArg o (.obj []), handleToJS self.cameraNodeHandle]
  | .record o => [defaultArg o (.obj []), handleToJS self.cameraNodeHandle]
  | .stopRecording => [handleToJS self.cameraNodeHandle]
  | .availableRatios => [handleToJS self.cameraNodeHandle]
  | .availablePictureSizes r => [r, handleToJS self.cameraNodeHandle]
  | .focusOnPoint p => [p, handleToJS self.cameraNodeHandle]

/-- Dispatch a command to its method. -/
def invoke (m : ExpoCamera2ViewManager) (self : ExpoCamera2View) :
    Command → ExpoCamera2View × InvokeResult × List RegistryCall
  | .pausePreview => self.pausePreviewAsync m
  | .resumePreview => self.resumePreviewAsync m
  | .takePicture o => self.takePictureAsync m o
  | .record o => self.recordAsync m o
  | .stopRecording => self.stopRecordingAsync m
  | .availableRatios => self.getAvailableRatiosAsync m
  | .availablePictureSizes r => self.getAvailablePictureSizesAsync m r
  | .focusOnPoint p => self.focusOnPoint m p

/-- Modelled from the spec: the `Autofocus` enum of `ExpoCamera2.types`
(imported by the source but not under `src/`); the spec names the default
member `off`. -/
inductive Autofocus : Type
  | on : Autofocus
  | off : Autofocus
deriving DecidableEq

/-- Modelled from the spec: the `Facing` enum of `ExpoCamera2.types`; the
spec names the default member `back`. -/
inductive Facing : Type
  | front : Facing
  | back : Facing
deriving DecidableEq

/-- Modelled from the spec: the `FlashMode` enum of `ExpoCamera2.types`;
the spec names the default member `off`. -/
inductive FlashMode : Type
  | off : FlashMode
  | on : FlashMode
  | auto : FlashMode
  | torch : FlashMode
deriving DecidableEq

/-- Modelled from the spec: the `WhiteBalance` enum of `ExpoCamera2.types`;
the spec names the default member `auto`. -/
inductive WhiteBalance : Type
  | auto : WhiteBalance
  | sunny : WhiteBalance
  | cloudy : WhiteBalance
  | shadow : WhiteBalance
  | fluorescent : WhiteBalance
  | incandescent : WhiteBalance
deriving DecidableEq

/-- Modelled from the spec: the `MountError` payload relayed to
`onMountError`. -/
structure MountError : Type where
  message : String

/-- The shape of `ExpoCamera2View.defaultProps` (lines 141–150): one value
per configurable prop plus the two no-op event callbacks. JavaScript's
float literals `0.0` are modelled as exact rationals. -/
structure DefaultProps : Type where
  autofocus : Autofocus
  facing : Facing
  flashMode : FlashMode
  focusDepth : ℚ
  whiteBalance : WhiteBalance
  zoom : ℚ
  onCameraReady : Unit → Unit
  onMountError : MountError → Unit

/-- `static defaultProps` of `ExpoCamera2View` (lines 141–150). -/
def ExpoCamera2View.defaultProps : DefaultProps where
  autofocus := .off
  facing := .back
  flashMode := .off
  focusDepth := 0
  whiteBalance := .auto
  zoom := 0
  onCameraReady := fun _ => ()
  onMountError := fun _ => ()

/-- The configurable props as the caller supplies them: each is optional
(`none` models leaving the prop unset / `undefined`). -/
structure GivenProps : Type where
  autofocus : Option Autofocus
  facing : Option Facing
  flashMode : Option FlashMode
  focusDepth : Option ℚ
  whiteBalance : Option WhiteBalance
  zoom : Option ℚ

/-- The effective configuration after default resolution. -/
structure ResolvedConfig : Type where
  autofocus : Autofocus
  facing : Facing
  flashMode : FlashMode
  focusDepth : ℚ
  whiteBalance : WhiteBalance
  zoom : ℚ
deriving DecidableEq

/-- Modelled from the spec: React's `defaultProps` mechanism (external to
this repository) substitutes the component's default for every prop left
unset — "Default configuration values apply when unset". -/
def resolveProps (p : GivenProps) : ResolvedConfig where
  autofocus := p.autofocus.getD ExpoCamera2View.defaultProps.autofocus
  facing := p.facing.getD ExpoCamera2View.defaultProps.facing
  flashMode := p.flashMode.getD ExpoCamera2View.defaultProps.flashMode
  focusDepth := p.focusDepth.getD ExpoCamera2View.defaultProps.focusDepth
  whiteBalance := p.whiteBalance.getD ExpoCamera2View.defaultProps.whiteBalance
  zoom := p.zoom.getD ExpoCamera2View.defaultProps.zoom

/-- Whether a value is exactly `undefined`. -/
def JSValue.isUndefined : JSValue → Bool
  | .undefined => true
  | _ => false

/-- Whether the final argument of a recorded registry call — the position
the handle is passed in — is `undefined`. -/
def RegistryCall.lastArgUndefined (call : RegistryCall) : Bool :=
  match call.args.getLast? with
  | some v => v.isUndefined
  | none => false

/-- Whether an invocation ended in a synchronous throw. -/
def InvokeResult.isThrown : InvokeResult → Bool
  | .thrown _ => true
  | .returned _ => false

/-- Whether an invocation returned a promise that rejects. -/
def InvokeResult.isRejected : InvokeResult → Bool
  | .returned (.rejected _) => true
  | _ => false

/-- A registry with every capability absent (each entry reads as
`undefined`). -/
def emptyManager : ExpoCamera2ViewManager where
  pausePreviewAsync := .value .undefined
  resumePreviewAsync := .value .undefined
  takePictureAsync := .value .undefined
  recordAsync := .value .undefined
  stopRecordingAsync := .value .undefined
  getAvailableRatiosAsync := .value .undefined
  getAvailablePictureSizesAsync := .value .undefined
  focusOnPoint := .value .undefined

/-- A registry function that resolves with the string `"ok"` whatever the
arguments. -/
def okFn : List JSValue → PromiseOutcome :=
  fun _ => .resolved (.str "ok")

/-- A registry with every capability implemented by `okFn`. -/
def okManager : ExpoCamera2ViewManager where
  pausePreviewAsync := .func okFn
  resumePreviewAsync := .func okFn
  takePictureAsync := .func okFn
  recordAsync := .func okFn
  stopRecordingAsync := .func okFn
  getAvailableRatiosAsync := .func okFn
  getAvailablePictureSizesAsync := .func okFn
  focusOnPoint := .func okFn

/-- The picture descriptor `\x7buri: "file://x.jpg"\x7d`. -/
def xPicture : JSValue :=
  .obj [("uri", .str "file://x.jpg")]

/-- A registry whose `takePictureAsync` resolves with `xPicture`; the other
entries are absent. -/
def pictureManager : ExpoCamera2ViewManager where
  pausePreviewAsync := .value .undefined
  resumePreviewAsync := .value .undefined
  takePictureAsync := .func fun _ => .resolved xPicture
  recordAsync := .value .undefined
  stopRecordingAsync := .value .undefined
  getAvailableRatiosAsync := .value .undefined
  getAvailablePictureSizesAsync := .value .undefined
  focusOnPoint := .value .undefined

/-- A component that mounted (resolving handle `42`) and then unmounted:
`setNativeReference` with a live ref, then with `null`. -/
def mountedThenUnmounted : ExpoCamera2View :=
  ((ExpoCamera2View.mk none).setNativeReference (some ⟨some 42⟩)).setNativeReference none

/-- A registry whose entries are all present and falsy in four different
ways (`0`, `false`, `""`, `null`), the remaining ones absent. -/
def falsyManager : ExpoCamera2ViewManager where
  pausePreviewAsync := .value (.num 0)
  resumePreviewAsync := .value (.bool false)
  takePictureAsync := .value (.str "")
  recordAsync := .value .null
  stopRecordingAsync := .value .undefined
  getAvailableRatiosAsync := .value .undefined
  getAvailablePictureSizesAsync := .value .undefined
  focusOnPoint := .value .undefined

/-! ## Helper lemmas -/

/-- When the registry entry is falsy the decorator throws before running
the method body. -/
theorem ensureAvailable_falsy (m : ExpoCamera2ViewManager) (name : String)
    (self : ExpoCamera2View)
    (body : ExpoCamera2View → ExpoCamera2View × InvokeResult × List RegistryCall)
    (h : (m.get name).truthy = false) :
    ensureAvailable m name self body =
      (self, .thrown (.unavailability "Camera" name), []) := by
  unfold ensureAvailable
  rw [h]
  rfl

/-- When the registry entry is truthy the decorator runs the method body on
the unchanged instance. -/
theorem ensureAvailable_truthy (m : ExpoCamera2ViewManager) (name : String)
    (self : ExpoCamera2View)
    (body : ExpoCamera2View → ExpoCamera2View × InvokeResult × List RegistryCall)
    (h : (m.get name).truthy = true) :
    ensureAvailable m name self body = body self := by
  unfold ensureAvailable
  rw [h]
  rfl

/-- A gated registry-delegating command makes either no registry call or
exactly the one call with the method's argument list. -/
theorem command_trace (m : ExpoCamera2ViewManager) (name : String) (self : ExpoCamera2View)
    (args : ExpoCamera2View → List JSValue) :
    (ensureAvailable m name self fun this => (this, callManager m name (args this))).2.2 = [] ∨
    (ensureAvailable m name self fun this => (this, callManager m name (args this))).2.2 =
      [⟨name, args self⟩] := by
  unfold ensureAvailable callManager
  split
  · exact Or.inl rfl
  · cases m.get name
    · exact Or.inl rfl
    · exact Or.inr rfl

/-! ## Claims -/

/-- C1: for every command method of `ExpoCamera2View`, if the registry has
no entry under the command's name (the lookup reads `undefined`), invoking
the command throws `UnavailabilityError` carrying the subsystem `"Camera"`
and the capability name, synchronously (a throw, not a rejected promise),
and no registry function is called (the call trace is empty). -/
theorem claim_C1 (m : ExpoCamera2ViewManager) (self : ExpoCamera2View) (c : Command)
    (h : m.get c.name = .value .undefined) :
    invoke m self c = (self, .thrown (.unavailability "Camera" c.name), []) := by
  cases c <;>
    simp_all [invoke, ExpoCamera2View.pausePreviewAsync, ExpoCamera2View.resumePreviewAsync,
      ExpoCamera2View.takePictureAsync, ExpoCamera2View.recordAsync,
      ExpoCamera2View.stopRecordingAsync, ExpoCamera2View.getAvailableRatiosAsync,
      ExpoCamera2View.getAvailablePictureSizesAsync, ExpoCamera2View.focusOnPoint,
      ensureAvailable, Command.name, EntryVal.truthy, JSValue.truthy]

/-- Witness for C1 at a concrete input: an all-absent registry and a
mounted component; `pausePreviewAsync` throws the unavailability error
without any registry call. -/
theorem claim_C1_witness :
    invoke emptyManager (ExpoCamera2View.mk (some 5)) .pausePreview =
      (ExpoCamera2View.mk (some 5),
        .thrown (.unavailability "Camera" "pausePreviewAsync"), []) :=
  claim_C1 emptyManager (ExpoCamera2View.mk (some 5)) .pausePreview rfl

/-- C2: for every command method, if the registry has a function entry
under the command's name, invoking the command calls exactly that function
with exactly the given arguments plus the current handle appended, and
returns its result unchanged — including a rejected promise, which is
propagated as-is since the result is the arbitrary function's output. -/
theorem claim_C2 (m : ExpoCamera2ViewManager) (self : ExpoCamera2View) (c : Command)
    (f : List JSValue → PromiseOutcome) (h : m.get c.name = .func f) :
    invoke m self c =
      (self, .returned (f (c.args self)), [⟨c.name, c.args self⟩]) := by
  cases c <;>
    simp_all [invoke, ExpoCamera2View.pausePreviewAsync, ExpoCamera2View.resumePreviewAsync,
      ExpoCamera2View.takePictureAsync, ExpoCamera2View.recordAsync,
      ExpoCamera2View.stopRecordingAsync, ExpoCamera2View.getAvailableRatiosAsync,
      ExpoCamera2View.getAvailablePictureSizesAsync, ExpoCamera2View.focusOnPoint,
      ensureAvailable, callManager, Command.name, Command.args, EntryVal.truthy]

/-- Witness for C2 at a concrete input: a registry implementing every
capability with `okFn`; `getAvailableRatiosAsync` on handle `7` makes
exactly one registry call with the handle appended and passes the resolved
result through. -/
theorem claim_C2_witness :
    invoke okManager (ExpoCamera2View.mk (some 7)) .availableRatios =
      (ExpoCamera2View.mk (some 7), .returned (.resolved (.str "ok")),
        [⟨"getAvailableRatiosAsync", [.num 7]⟩]) :=
  claim_C2 okManager (ExpoCamera2View.mk (some 7)) .availableRatios okFn rfl

/-- C3, counterexample to the claim as stated: after mount then unmount the
handle is cleared, but a subsequent `takePictureAsync` against a registry
whose entry resolves does NOT fail fast and is NOT rejected — it resolves,
because the proxy forwards the call with the `undefined` handle instead of
rejecting it. -/
theorem claim_C3_counterexample :
    mountedThenUnmounted.cameraNodeHandle = none ∧
    (invoke okManager mountedThenUnmounted (.takePicture none)).2.1.isThrown = false ∧
    (invoke okManager mountedThenUnmounted (.takePicture none)).2.1.isRejected = false ∧
    (invoke okManager mountedThenUnmounted (.takePicture none)).2.2 =
      [⟨"takePictureAsync", [.obj [], .undefined]⟩] :=
  ⟨rfl, rfl, rfl, rfl⟩

/-- C3, amended: after unmount (`setNativeReference` with `null`) the
handle field is cleared, and any command invoked afterwards never passes a
stale handle to the registry — every registry call it records carries
`undefined` in the trailing handle position (and, the entry being absent,
it fails fast per C1; the proxy itself never rejects on a cleared
handle). -/
theorem claim_C3 (m : ExpoCamera2ViewManager) (self0 : ExpoCamera2View) (c : Command) :
    (self0.setNativeReference none).cameraNodeHandle = none ∧
    ((invoke m (self0.setNativeReference none) c).2.2.all
      RegistryCall.lastArgUndefined) = true := by
  refine ⟨rfl, ?_⟩
  have hs : (self0.setNativeReference none).cameraNodeHandle = none := rfl
  generalize self0.setNativeReference none = s at hs ⊢
  have key : ∀ (name : String) (args : ExpoCamera2View → List JSValue),
      (∀ this : ExpoCamera2View,
        (args this).getLast? = some (handleToJS this.cameraNodeHandle)) →
      ((ensureAvailable m name s fun this =>
        (this, callManager m name (args this))).2.2.all
          RegistryCall.lastArgUndefined) = true := by
    intro name args hargs
    rcases command_trace m name s args with h | h <;> rw [h]
    · rfl
    · simp [RegistryCall.lastArgUndefined, hargs s, hs, handleToJS, JSValue.isUndefined]
  cases c with
  | pausePreview =>
    exact key "pausePreviewAsync"
      (fun this => [handleToJS this.cameraNodeHandle]) (fun _ => rfl)
  | resumePreview =>
    exact key "resumePreviewAsync"
      (fun this => [handleToJS this.cameraNodeHandle]) (fun _ => rfl)
  | takePicture o =>
    exact key "takePictureAsync"
      (fun this => [defaultArg o (.obj []), handleToJS this.cameraNodeHandle]) (fun _ => rfl)
  | record o =>
    exact key "recordAsync"
      (fun this => [defaultArg o (.obj []), handleToJS this.cameraNodeHandle]) (fun _ => rfl)
  | stopRecording =>
    exact key "stopRecordingAsync"
      (fun this => [handleToJS this.cameraNodeHandle]) (fun _ => rfl)
  | availableRatios =>
    exact key "getAvailableRatiosAsync"
      (fun this => [handleToJS this.cameraNodeHandle]) (fun _ => rfl)
  | availablePictureSizes r =>
    exact key "getAvailablePictureSizesAsync"
      (fun this => [r, handleToJS this.cameraNodeHandle]) (fun _ => rfl)
  | focusOnPoint p =>
    exact key "focusOnPoint"
      (fun this => [p, handleToJS this.cameraNodeHandle]) (fun _ => rfl)

/-- C4: when every configurable prop is unset, the resolved configuration
takes the component's `defaultProps`: autofocus off, facing back, flash
off, focus depth `0.0`, white balance auto, zoom `0.0`. -/
theorem claim_C4 :
    resolveProps ⟨none, none, none, none, none, none⟩ =
      ⟨.off, .back, .off, 0, .auto, 0⟩ := rfl

/-- C5: with the registry entry `getAvailableRatiosAsync` undefined,
invoking `getAvailableRatiosAsync` throws an error whose message contains
both `"Camera"` and `"getAvailableRatiosAsync"` as substrings. -/
theorem claim_C5 :
    (invoke emptyManager (ExpoCamera2View.mk (some 7)) .availableRatios).2.1 =
      .thrown (.unavailability "Camera" "getAvailableRatiosAsync") ∧
    "Camera".toList.IsInfix
      (JSError.unavailability "Camera" "getAvailableRatiosAsync").message.toList ∧
    "getAvailableRatiosAsync".toList.IsInfix
      (JSError.unavailability "Camera" "getAvailableRatiosAsync").message.toList := by
  refine ⟨rfl, ?_, ?_⟩ <;> decide

/-- C6: with the registry entry `takePictureAsync` present and resolving to
the object with `uri` field `"file://x.jpg"`, `takePictureAsync` resolves
to exactly that object. -/
theorem claim_C6 :
    (invoke pictureManager (ExpoCamera2View.mk (some 11)) (.takePicture none)).2.1 =
      .returned (.resolved xPicture) := rfl

/-- C7: no command invocation mutates the component instance — the state
returned by every command equals the state it was invoked on, for every
registry and every command; within this model only `setNativeReference`
produces a different state. -/
theorem claim_C7 (m : ExpoCamera2ViewManager) (self : ExpoCamera2View) (c : Command) :
    (invoke m self c).1 = self := by
  cases c <;>
    simp only [invoke, ExpoCamera2View.pausePreviewAsync, ExpoCamera2View.resumePreviewAsync,
      ExpoCamera2View.takePictureAsync, ExpoCamera2View.recordAsync,
      ExpoCamera2View.stopRecordingAsync, ExpoCamera2View.getAvailableRatiosAsync,
      ExpoCamera2View.getAvailablePictureSizesAsync, ExpoCamera2View.focusOnPoint,
      ensureAvailable] <;>
    split <;> rfl

/-- C8: the availability gate tests truthiness, not key presence — for
every command, a registry entry that is any falsy plain value (including a
present-but-falsy entry such as `0`, `false`, `""` or `null`) makes the
invocation throw `UnavailabilityError` with no registry call made. -/
theorem claim_C8 (m : ExpoCamera2ViewManager) (self : ExpoCamera2View) (c : Command)
    (v : JSValue) (h : m.get c.name = .value v) (hf : v.truthy = false) :
    invoke m self c = (self, .thrown (.unavailability "Camera" c.name), []) := by
  cases c <;>
    simp_all [invoke, ExpoCamera2View.pausePreviewAsync, ExpoCamera2View.resumePreviewAsync,
      ExpoCamera2View.takePictureAsync, ExpoCamera2View.recordAsync,
      ExpoCamera2View.stopRecordingAsync, ExpoCamera2View.getAvailableRatiosAsync,
      ExpoCamera2View.getAvailablePictureSizesAsync, ExpoCamera2View.focusOnPoint,
      ensureAvailable, Command.name, EntryVal.truthy]

/-- Witness for C8 at a concrete input: the entry `pausePreviewAsync` is
present and equal to the falsy number `0`; the invocation throws the
unavailability error with no registry call. -/
theorem claim_C8_witness :
    (JSValue.num 0).truthy = false ∧
    invoke falsyManager (ExpoCamera2View.mk (some 3)) .pausePreview =
      (ExpoCamera2View.mk (some 3),
        .thrown (.unavailability "Camera" "pausePreviewAsync"), []) :=
  ⟨rfl, claim_C8 falsyManager (ExpoCamera2View.mk (some 3)) .pausePreview (.num 0) rfl rfl⟩

/-- C9: if `setNativeReference` receives a non-null ref for which
`findNodeHandle` returns a falsy value (`null` or `0`), the component is
left entirely unchanged — in particular the previously stored
`cameraNodeHandle` is neither updated nor cleared. -/
theorem claim_C9 (self : ExpoCamera2View) (r : NativeRef)
    (h : findNodeHandle r = none ∨ findNodeHandle r = some 0) :
    self.setNativeReference (some r) = self := by
  rcases h with h | h <;> simp [ExpoCamera2View.setNativeReference, h]

/-- Witness for C9 at a concrete input: a component holding handle `5`
keeps it when the new ref resolves to `null`. -/
theorem claim_C9_witness :
    (ExpoCamera2View.mk (some 5)).setNativeReference (some (NativeRef.mk none)) =
      ExpoCamera2View.mk (some 5) :=
  claim_C9 (ExpoCamera2View.mk (some 5)) (NativeRef.mk none) (Or.inl rfl)

/-- C10: when `takePictureAsync` or `recordAsync` is invoked with the
options argument omitted, the default parameter substitutes the empty
object, and the registry function receives exactly the empty object plus
the handle — never an `undefined` options value. -/
theorem claim_C10 (m : ExpoCamera2ViewManager) (self : ExpoCamera2View)
    (fp fr : List JSValue → PromiseOutcome)
    (hp : m.get "takePictureAsync" = .func fp) (hr : m.get "recordAsync" = .func fr) :
    invoke m self (.takePicture none) =
      (self, .returned (fp [.obj [], handleToJS self.cameraNodeHandle]),
        [⟨"takePictureAsync", [.obj [], handleToJS self.cameraNodeHandle]⟩]) ∧
    invoke m self (.record none) =
      (self, .returned (fr [.obj [], handleToJS self.cameraNodeHandle]),
        [⟨"recordAsync", [.obj [], handleToJS self.cameraNodeHandle]⟩]) := by
  constructor <;>
    simp_all [invoke, ExpoCamera2View.takePictureAsync, ExpoCamera2View.recordAsync,
      ensureAvailable, callManager, defaultArg, EntryVal.truthy]

/-- Witness for C10 at a concrete input: against `okManager` with handle
`9`, both option-less commands forward exactly the empty object plus the
handle. -/
theorem claim_C10_witness :
    invoke okManager (ExpoCamera2View.mk (some 9)) (.takePicture none) =
      (ExpoCamera2View.mk (some 9), .returned (.resolved (.str "ok")),
        [⟨"takePictureAsync", [.obj [], .num 9]⟩]) ∧
    invoke okManager (ExpoCamera2View.mk (some 9)) (.record none) =
      (ExpoCamera2View.mk (some 9), .returned (.resolved (.str "ok")),
        [⟨"recordAsync", [.obj [], .num 9]⟩]) :=
  claim_C10 okManager (ExpoCamera2View.mk (some 9)) okFn okFn rfl rfl

end ExpoCamera2
